import Mathlib

/-
Verification of the tanstack-ai protocol-normalization core.

The unified data model is translated from packages/ai/src/types.ts, the
facade from packages/ai/src/ai.ts, and the OpenAI adapter's request and
response translation from packages/ai-openai/src/openai-adapter.ts.
JavaScript union types become inductives or Option, optional fields become
Option with a none default, numeric sampling parameters become rationals
(they are passed through untouched, never computed with), and JavaScript
truthiness tests on strings and numbers are spelled out explicitly
(the empty string and zero are falsy).
-/

/-! ## Unified data model (packages/ai/src/types.ts) -/

/-- Role of a unified message: the union "system" | "user" | "assistant"
from types.ts.  There is no tool role in this model. -/
inductive Role where
  | system
  | user
  | assistant
  deriving DecidableEq, Repr

/-- The wire string each role constructor denotes in the TypeScript union. -/
def roleToString : Role → String
  | .system => "system"
  | .user => "user"
  | .assistant => "assistant"

/-- Unified Message from types.ts: role, content, optional name. -/
structure Message where
  role : Role
  content : String
  name : Option String := none
  deriving DecidableEq, Repr

/-- Token usage triple shared by chat, text and summarization results. -/
structure Usage where
  promptTokens : Nat
  completionTokens : Nat
  totalTokens : Nat
  deriving DecidableEq, Repr

/-- ChatCompletionOptions from types.ts. -/
structure ChatCompletionOptions where
  model : String
  messages : List Message
  temperature : Option ℚ := none
  maxTokens : Option Nat := none
  topP : Option ℚ := none
  frequencyPenalty : Option ℚ := none
  presencePenalty : Option ℚ := none
  stopSequences : Option (List String) := none
  stream : Option Bool := none
  metadata : Option (List (String × String)) := none
  deriving DecidableEq, Repr

/-- ChatCompletionChunk from types.ts: all terminal metadata optional. -/
structure ChatCompletionChunk where
  id : String
  model : String
  content : String
  role : Option String := none
  finishReason : Option String := none
  usage : Option Usage := none
  deriving DecidableEq, Repr

/-- ChatCompletionResult from types.ts. -/
structure ChatCompletionResult where
  id : String
  model : String
  content : String
  role : Role
  finishReason : Option String
  usage : Usage
  deriving DecidableEq, Repr

/-- TextGenerationOptions from types.ts. -/
structure TextGenerationOptions where
  model : String
  prompt : String
  maxTokens : Option Nat := none
  temperature : Option ℚ := none
  topP : Option ℚ := none
  frequencyPenalty : Option ℚ := none
  presencePenalty : Option ℚ := none
  stopSequences : Option (List String) := none
  stream : Option Bool := none
  deriving DecidableEq, Repr

/-- TextGenerationResult from types.ts. -/
structure TextGenerationResult where
  id : String
  model : String
  text : String
  finishReason : Option String
  usage : Usage
  deriving DecidableEq, Repr

/-- The summarization style union from types.ts. -/
inductive SummaryStyle where
  | bulletPoints
  | paragraph
  | concise
  deriving DecidableEq, Repr

/-- SummarizationOptions from types.ts. -/
structure SummarizationOptions where
  model : String
  text : String
  maxLength : Option Nat := none
  style : Option SummaryStyle := none
  focus : Option (List String) := none
  deriving DecidableEq, Repr

/-- SummarizationResult from types.ts. -/
structure SummarizationResult where
  id : String
  model : String
  summary : String
  usage : Usage
  deriving DecidableEq, Repr

/-- EmbeddingOptions from types.ts: input is a string or a list of strings. -/
structure EmbeddingOptions where
  model : String
  input : String ⊕ List String
  dimensions : Option Nat := none
  deriving DecidableEq, Repr

/-- Usage pair of an embedding result. -/
structure EmbeddingUsage where
  promptTokens : Nat
  totalTokens : Nat
  deriving DecidableEq, Repr

/-- EmbeddingResult from types.ts. -/
structure EmbeddingResult where
  id : String
  model : String
  embeddings : List (List ℚ)
  usage : EmbeddingUsage
  deriving DecidableEq, Repr

/-- Number of inputs an EmbeddingOptions.input supplies: a single string
counts as one, a list as its length. -/
def inputCount : String ⊕ List String → Nat
  | .inl _ => 1
  | .inr l => l.length

/-! ## OpenAI wire payloads (packages/ai-openai/src/openai-adapter.ts) -/

/-- JavaScript string-or on strings: the left operand unless it is empty
(the only falsy string), as in the adapter's model defaulting. -/
def stringOr (s d : String) : String := if s = "" then d else s

/-- One message of the outbound chat payload: the adapter copies role,
content and name through. -/
structure OpenAIWireMessage where
  role : Role
  content : String
  name : Option String := none
  deriving DecidableEq, Repr

/-- The payload of client.chat.completions.create as the adapter builds it. -/
structure OpenAIChatRequest where
  model : String
  messages : List OpenAIWireMessage
  temperature : Option ℚ := none
  max_tokens : Option Nat := none
  top_p : Option ℚ := none
  frequency_penalty : Option ℚ := none
  presence_penalty : Option ℚ := none
  stop : Option (List String) := none
  stream : Bool := false
  deriving DecidableEq, Repr

/-- The outbound chat payload built by chatCompletion (stream false) and
chatCompletionStream (stream true): model defaulted to gpt-3.5-turbo when
empty, messages mapped field by field, sampling options passed through. -/
def buildChatRequest (o : ChatCompletionOptions) (stream : Bool) : OpenAIChatRequest :=
  { model := stringOr o.model "gpt-3.5-turbo"
    messages := o.messages.map fun m => { role := m.role, content := m.content, name := m.name }
    temperature := o.temperature
    max_tokens := o.maxTokens
    top_p := o.topP
    frequency_penalty := o.frequencyPenalty
    presence_penalty := o.presencePenalty
    stop := o.stopSequences
    stream := stream }

/-- The payload of client.completions.create as generateText builds it. -/
structure OpenAITextRequest where
  model : String
  prompt : String
  max_tokens : Option Nat := none
  temperature : Option ℚ := none
  top_p : Option ℚ := none
  frequency_penalty : Option ℚ := none
  presence_penalty : Option ℚ := none
  stop : Option (List String) := none
  stream : Bool := false
  deriving DecidableEq, Repr

/-- The outbound completions payload built by generateText (stream false)
and generateTextStream (stream true). -/
def buildTextRequest (o : TextGenerationOptions) (stream : Bool) : OpenAITextRequest :=
  { model := stringOr o.model "gpt-3.5-turbo-instruct"
    prompt := o.prompt
    max_tokens := o.maxTokens
    temperature := o.temperature
    top_p := o.topP
    frequency_penalty := o.frequencyPenalty
    presence_penalty := o.presencePenalty
    stop := o.stopSequences
    stream := stream }

/-- buildSummarizationPrompt from the adapter: a fixed preamble, a style
sentence, an optional focus sentence (only when focus is present and
non-empty), and an optional length sentence (only when maxLength is
present and non-zero, matching the JavaScript truthiness test). -/
def buildSummarizationPrompt (o : SummarizationOptions) : String :=
  let p1 := "You are a professional summarizer. "
  let p2 := p1 ++ (match o.style with
    | some .bulletPoints => "Provide a summary in bullet point format. "
    | some .paragraph => "Provide a summary in paragraph format. "
    | some .concise => "Provide a very concise summary in 1-2 sentences. "
    | none => "Provide a clear and concise summary. ")
  let p3 := p2 ++ (match o.focus with
    | some fs =>
      if fs.length > 0 then
        "Focus on the following aspects: " ++ String.intercalate ", " fs ++ ". "
      else ""
    | none => "")
  p3 ++ (match o.maxLength with
    | some n => if n = 0 then "" else "Keep the summary under " ++ toString n ++ " tokens. "
    | none => "")

/-- The single outbound chat payload summarize builds: a system message
holding the built prompt, a user message holding the text, max_tokens from
maxLength, temperature fixed at 0.3, stream false. -/
def summarizeRequest (o : SummarizationOptions) : OpenAIChatRequest :=
  { model := stringOr o.model "gpt-3.5-turbo"
    messages := [{ role := Role.system, content := buildSummarizationPrompt o },
                 { role := Role.user, content := o.text }]
    temperature := some (3 / 10 : ℚ)
    max_tokens := o.maxLength
    stream := false }

/-- The payload of client.embeddings.create as createEmbeddings builds it. -/
structure OpenAIEmbeddingRequest where
  model : String
  input : String ⊕ List String
  dimensions : Option Nat := none
  deriving DecidableEq, Repr

/-- The outbound embeddings payload built by createEmbeddings. -/
def buildEmbeddingsRequest (o : EmbeddingOptions) : OpenAIEmbeddingRequest :=
  { model := stringOr o.model "text-embedding-ada-002"
    input := o.input
    dimensions := o.dimensions }

/-! ## OpenAI responses and their translation back to the unified model -/

/-- Provider usage block with snake_case counts. -/
structure OpenAIUsage where
  prompt_tokens : Nat
  completion_tokens : Nat
  total_tokens : Nat
  deriving DecidableEq, Repr

/-- The message inside a non-streamed chat choice; content may be null. -/
structure OpenAIResponseMessage where
  role : String
  content : Option String
  deriving DecidableEq, Repr

/-- One choice of a non-streamed chat response. -/
structure OpenAIChatChoice where
  message : OpenAIResponseMessage
  finish_reason : Option String
  deriving DecidableEq, Repr

/-- A non-streamed chat completion response; usage may be absent. -/
structure OpenAIChatResponse where
  id : String
  model : String
  choices : List OpenAIChatChoice
  usage : Option OpenAIUsage := none
  deriving DecidableEq, Repr

/-- chatCompletion's result construction from a provider response.  The
code reads response.choices[0] unconditionally, so an empty choices list
is a runtime failure, modelled as none.  Null content becomes the empty
string and absent usage counts become zero, as the or-defaults do. -/
def chatCompletionOfResponse (resp : OpenAIChatResponse) : Option ChatCompletionResult :=
  match resp.choices with
  | [] => none
  | choice :: _ => some
    { id := resp.id
      model := resp.model
      content := choice.message.content.getD ""
      role := Role.assistant
      finishReason := choice.finish_reason
      usage :=
        { promptTokens := (resp.usage.map fun u => u.prompt_tokens).getD 0
          completionTokens := (resp.usage.map fun u => u.completion_tokens).getD 0
          totalTokens := (resp.usage.map fun u => u.total_tokens).getD 0 } }

/-- The delta of one streamed chat event. -/
structure OpenAIStreamDelta where
  content : Option String := none
  role : Option String := none
  deriving DecidableEq, Repr

/-- One choice of a streamed chat event. -/
structure OpenAIStreamChoice where
  delta : OpenAIStreamDelta
  finish_reason : Option String := none
  deriving DecidableEq, Repr

/-- One provider stream event.  The provider may attach usage to a
terminal event; the adapter never reads that field. -/
structure OpenAIStreamEvent where
  id : String
  model : String
  choices : List OpenAIStreamChoice
  usage : Option OpenAIUsage := none
  deriving DecidableEq, Repr

/-- The chunk chatCompletionStream yields for one event, if any: the loop
body guards on chunk.choices[0]?.delta.content being truthy (present and
non-empty) and otherwise yields nothing.  The yielded chunk copies the
event's id, model, delta role and finish_reason; it never carries usage. -/
def emittedChunk (ev : OpenAIStreamEvent) : Option ChatCompletionChunk :=
  match ev.choices with
  | [] => none
  | choice :: _ =>
    match choice.delta.content with
    | none => none
    | some s =>
      if s = "" then none
      else some
        { id := ev.id
          model := ev.model
          content := s
          role := choice.delta.role
          finishReason := choice.finish_reason
          usage := none }

/-- The full chunk sequence chatCompletionStream yields for an event
sequence: one pass over the events, yielding per emittedChunk. -/
def chatCompletionStreamChunks (evs : List OpenAIStreamEvent) : List ChatCompletionChunk :=
  evs.filterMap emittedChunk

/-- A datum of an embeddings response. -/
structure OpenAIEmbeddingDatum where
  embedding : List ℚ
  deriving DecidableEq, Repr

/-- Usage block of an embeddings response. -/
structure OpenAIEmbeddingUsage where
  prompt_tokens : Nat
  total_tokens : Nat
  deriving DecidableEq, Repr

/-- An embeddings response. -/
structure OpenAIEmbeddingResponse where
  model : String
  data : List OpenAIEmbeddingDatum
  usage : OpenAIEmbeddingUsage
  deriving DecidableEq, Repr

/-- createEmbeddings' result construction: a locally generated id, the
response model, one embedding vector per response datum, usage copied. -/
def createEmbeddingsResult (generatedId : String) (resp : OpenAIEmbeddingResponse) : EmbeddingResult :=
  { id := generatedId
    model := resp.model
    embeddings := resp.data.map fun d => d.embedding
    usage := { promptTokens := resp.usage.prompt_tokens, totalTokens := resp.usage.total_tokens } }

/-! ## Local error channel of the adapter operations

The spec's error taxonomy reserves InvalidArgument for a required unified
field that is missing or empty, raised before any network call.  Each
operation's local phase (everything before the outbound request) is
embedded as an Except value: a thrown InvalidArgument would be an error,
and the request reaching the provider transport is an ok carrying the
built payload.  The adapter source contains no validation and no local
throw, so every operation's local phase is the ok branch applied to its
request builder. -/

/-- A local adapter error as the spec's taxonomy names it. -/
inductive AdapterError where
  | invalidArgument (message : String)
  deriving DecidableEq, Repr

/-- Local phase of chatCompletion: no validation, request always built. -/
def chatCompletionLocal (o : ChatCompletionOptions) : Except AdapterError OpenAIChatRequest :=
  .ok (buildChatRequest o false)

/-- Local phase of chatCompletionStream: no validation. -/
def chatCompletionStreamLocal (o : ChatCompletionOptions) : Except AdapterError OpenAIChatRequest :=
  .ok (buildChatRequest o true)

/-- Local phase of generateText: no validation. -/
def generateTextLocal (o : TextGenerationOptions) : Except AdapterError OpenAITextRequest :=
  .ok (buildTextRequest o false)

/-- Local phase of generateTextStream: no validation. -/
def generateTextStreamLocal (o : TextGenerationOptions) : Except AdapterError OpenAITextRequest :=
  .ok (buildTextRequest o true)

/-- Local phase of summarize: no validation. -/
def summarizeLocal (o : SummarizationOptions) : Except AdapterError OpenAIChatRequest :=
  .ok (summarizeRequest o)

/-- Local phase of createEmbeddings: no validation. -/
def createEmbeddingsLocal (o : EmbeddingOptions) : Except AdapterError OpenAIEmbeddingRequest :=
  .ok (buildEmbeddingsRequest o)

/-! ## The facade (packages/ai/src/ai.ts)

An adapter is the record of operations the AIAdapter interface declares;
promises become plain values and async iterables become lists, which is
sound here because the facade neither inspects nor sequences them.  The AI
class holds exactly one adapter reference. -/

/-- The AIAdapter interface as a record of operations. -/
structure AIAdapter where
  name : String
  chatCompletion : ChatCompletionOptions → ChatCompletionResult
  chatCompletionStream : ChatCompletionOptions → List ChatCompletionChunk
  generateText : TextGenerationOptions → TextGenerationResult
  generateTextStream : TextGenerationOptions → List String
  summarize : SummarizationOptions → SummarizationResult
  createEmbeddings : EmbeddingOptions → EmbeddingResult

/-- The AI facade: one adapter reference. -/
structure AI where
  adapter : AIAdapter

/-- The adapterName accessor: the bound adapter's name. -/
def AI.adapterName (ai : AI) : String := ai.adapter.name

/-- AI.chat delegates to the adapter's chatCompletion unchanged. -/
def AI.chat (ai : AI) (o : ChatCompletionOptions) : ChatCompletionResult :=
  ai.adapter.chatCompletion o

/-- AI.chatStream delegates to chatCompletionStream, spreading the options
with stream set to true, as the source writes it. -/
def AI.chatStream (ai : AI) (o : ChatCompletionOptions) : List ChatCompletionChunk :=
  ai.adapter.chatCompletionStream { o with stream := some true }

/-- AI.generateText delegates unchanged. -/
def AI.generateText (ai : AI) (o : TextGenerationOptions) : TextGenerationResult :=
  ai.adapter.generateText o

/-- AI.generateTextStream delegates with stream set to true. -/
def AI.generateTextStream (ai : AI) (o : TextGenerationOptions) : List String :=
  ai.adapter.generateTextStream { o with stream := some true }

/-- AI.summarize delegates unchanged. -/
def AI.summarize (ai : AI) (o : SummarizationOptions) : SummarizationResult :=
  ai.adapter.summarize o

/-- AI.embed delegates to createEmbeddings unchanged. -/
def AI.embed (ai : AI) (o : EmbeddingOptions) : EmbeddingResult :=
  ai.adapter.createEmbeddings o

/-- AI.setAdapter replaces the bound adapter. -/
def AI.setAdapter (ai : AI) (a : AIAdapter) : AI :=
  { ai with adapter := a }

/-! ## JSON values

A minimal JSON model for the structured-output extractor and the message
translation: values, a renderer, and a parser over the character list with
a fuel bound.  Numbers are integers, which covers every JSON value these
components are specified and tested on; fractions and exponents are out of
scope of this model. -/

/-- A JSON value. -/
inductive Json where
  | null
  | bool (b : Bool)
  | num (n : Int)
  | str (s : String)
  | arr (xs : List Json)
  | obj (fields : List (String × Json))
  deriving Repr

/-- Escape of one character inside a JSON string literal. -/
def escapeChar (c : Char) : String :=
  if c = '"' then "\\\"" else if c = '\\' then "\\\\" else String.mk [c]

/-- A JSON string literal for a string value. -/
def jsonQuote (s : String) : String :=
  "\"" ++ String.join (s.data.map escapeChar) ++ "\""

mutual

/-- Serialize a JSON value to text. -/
def Json.render : Json → String
  | .null => "null"
  | .bool true => "true"
  | .bool false => "false"
  | .num n => toString n
  | .str s => jsonQuote s
  | .arr xs => "[" ++ Json.renderList xs ++ "]"
  | .obj fs => "\x7b" ++ Json.renderObj fs ++ "\x7d"

/-- Comma-joined rendering of array elements. -/
def Json.renderList : List Json → String
  | [] => ""
  | [x] => Json.render x
  | x :: y :: xs => Json.render x ++ "," ++ Json.renderList (y :: xs)

/-- Comma-joined rendering of object members. -/
def Json.renderObj : List (String × Json) → String
  | [] => ""
  | [(k, v)] => jsonQuote k ++ ":" ++ Json.render v
  | (k, v) :: f :: fs => jsonQuote k ++ ":" ++ Json.render v ++ "," ++ Json.renderObj (f :: fs)

end

/-- Drop leading JSON whitespace. -/
def skipWs : List Char → List Char
  | [] => []
  | c :: cs => if c = ' ' ∨ c = '\n' ∨ c = '\t' ∨ c = '\r' then skipWs cs else c :: cs

/-- Parse the characters of a JSON string literal after its opening quote,
handling the quote, backslash, n, t and slash escapes; returns the decoded
characters and the remainder after the closing quote. -/
def parseStringChars : Nat → List Char → Option (List Char × List Char)
  | 0, _ => none
  | _, [] => none
  | fuel + 1, c :: rest =>
    if c = '"' then some ([], rest)
    else if c = '\\' then
      match rest with
      | [] => none
      | e :: rest2 =>
        let dec : Option Char :=
          if e = '"' then some '"'
          else if e = '\\' then some '\\'
          else if e = 'n' then some '\n'
          else if e = 't' then some '\t'
          else if e = '/' then some '/'
          else none
        match dec with
        | none => none
        | some d =>
          match parseStringChars fuel rest2 with
          | some (out, rem) => some (d :: out, rem)
          | none => none
    else
      match parseStringChars fuel rest with
      | some (out, rem) => some (c :: out, rem)
      | none => none

/-- Accumulate a run of decimal digits. -/
def parseDigitsAux : Nat → List Char → Nat × List Char
  | acc, [] => (acc, [])
  | acc, c :: cs =>
    if c.isDigit then parseDigitsAux (acc * 10 + (c.toNat - 48)) cs
    else (acc, c :: cs)

/-- Parse an optionally negated integer literal. -/
def parseNumber : List Char → Option (Int × List Char)
  | [] => none
  | c :: rest =>
    if c = '-' then
      match rest with
      | [] => none
      | d :: _ =>
        if d.isDigit then
          let (n, rem) := parseDigitsAux 0 rest
          some (-(n : Int), rem)
        else none
    else if c.isDigit then
      let (n, rem) := parseDigitsAux 0 (c :: rest)
      some ((n : Int), rem)
    else none

mutual

/-- Parse one JSON value; fuel bounds the recursion depth. -/
def parseValue : Nat → List Char → Option (Json × List Char)
  | 0, _ => none
  | fuel + 1, cs =>
    match skipWs cs with
    | [] => none
    | c :: rest =>
      if c = '"' then
        match parseStringChars (rest.length + 1) rest with
        | some (out, rem) => some (Json.str (String.mk out), rem)
        | none => none
      else if c = 't' then
        match rest with
        | 'r' :: 'u' :: 'e' :: rem => some (Json.bool true, rem)
        | _ => none
      else if c = 'f' then
        match rest with
        | 'a' :: 'l' :: 's' :: 'e' :: rem => some (Json.bool false, rem)
        | _ => none
      else if c = 'n' then
        match rest with
        | 'u' :: 'l' :: 'l' :: rem => some (Json.null, rem)
        | _ => none
      else if c = '[' then
        match skipWs rest with
        | ']' :: rem => some (Json.arr [], rem)
        | cs2 =>
          match parseElements fuel cs2 with
          | some (xs, rem) => some (Json.arr xs, rem)
          | none => none
      else if c = '\x7b' then
        match skipWs rest with
        | '\x7d' :: rem => some (Json.obj [], rem)
        | cs2 =>
          match parseMembers fuel cs2 with
          | some (fs, rem) => some (Json.obj fs, rem)
          | none => none
      else
        match parseNumber (c :: rest) with
        | some (n, rem) => some (Json.num n, rem)
        | none => none

/-- Parse the elements of a non-empty array up to its closing bracket. -/
def parseElements : Nat → List Char → Option (List Json × List Char)
  | 0, _ => none
  | fuel + 1, cs =>
    match parseValue fuel cs with
    | none => none
    | some (x, rem) =>
      match skipWs rem with
      | ',' :: rem2 =>
        match parseElements fuel rem2 with
        | some (xs, rem3) => some (x :: xs, rem3)
        | none => none
      | ']' :: rem2 => some ([x], rem2)
      | _ => none

/-- Parse the members of a non-empty object up to its closing brace. -/
def parseMembers : Nat → List Char → Option (List (String × Json) × List Char)
  | 0, _ => none
  | fuel + 1, cs =>
    match skipWs cs with
    | '"' :: rest =>
      match parseStringChars (rest.length + 1) rest with
      | some (key, rem) =>
        match skipWs rem with
        | ':' :: rem2 =>
          match parseValue fuel rem2 with
          | none => none
          | some (v, rem3) =>
            match skipWs rem3 with
            | ',' :: rem4 =>
              match parseMembers fuel rem4 with
              | some (fs, rem5) => some ((String.mk key, v) :: fs, rem5)
              | none => none
            | '\x7d' :: rem4 => some ([(String.mk key, v)], rem4)
            | _ => none
        | _ => none
      | none => none
    | _ => none

end

/-- Parse a whole string as one JSON value with nothing but whitespace
after it. -/
def Json.parse (s : String) : Option Json :=
  match parseValue (s.length * 4 + 16) s.data with
  | some (j, rem) => if (skipWs rem).isEmpty then some j else none
  | none => none

/-! ## Spec-modelled Anthropic-side components

The Anthropic text adapter (its message translation and structured-output
extractor) is repository code whose source is not present here; only its
test file is.  The definitions below are modelled from the spec, sections
3, 4.2 and 4.4, and are marked as such. -/

/-- Modelled from the spec: the four message roles of the spec's section 3
Message entity, used by the tool-capable message model the Anthropic
translation consumes (the missing src/adapters/text module). -/
inductive SpecRole where
  | system
  | user
  | assistant
  | tool
  deriving DecidableEq, Repr

/-- The provider-facing role string of a non-tool spec role. -/
def specRoleToString : SpecRole → String
  | .system => "system"
  | .user => "user"
  | .assistant => "assistant"
  | .tool => "tool"

/-- Modelled from the spec: a ToolCall of section 3, id plus a function
name and JSON-encoded argument string; the type tag is always the literal
"function" and is left implicit. -/
structure SpecToolCall where
  id : String
  name : String
  arguments : String
  deriving DecidableEq, Repr

/-- Modelled from the spec: the section 3 Message entity with optional
toolCalls and toolCallId, as consumed by the missing Anthropic adapter. -/
structure SpecMessage where
  role : SpecRole
  content : String
  name : Option String := none
  toolCalls : Option (List SpecToolCall) := none
  toolCallId : Option String := none
  deriving DecidableEq, Repr

/-- One provider content block of an Anthropic-style message. -/
inductive ProviderBlock where
  | text (t : String)
  | toolUse (id name : String) (input : Json)
  | toolResult (toolUseId : String) (content : String)
  deriving Repr

/-- The content of a provider message: a scalar string or blocks. -/
inductive ProviderContent where
  | scalar (s : String)
  | blocks (bs : List ProviderBlock)
  deriving Repr

/-- One provider message turn. -/
structure ProviderMessage where
  role : String
  content : ProviderContent
  deriving Repr

/-- Modelled from the spec: the section 4.2 message translation of the
missing Anthropic adapter.  An assistant message with tool calls becomes
an ordered block sequence, its free text first and then one tool-use
block per call carrying the parsed-from-JSON argument object; a tool
message becomes a result-bearing user turn whose sole block is a tool
result addressed to the originating tool-call id; plain messages pass
through as scalar content. -/
def translateMessage (m : SpecMessage) : ProviderMessage :=
  match m.role, m.toolCalls with
  | SpecRole.tool, _ =>
    { role := "user"
      content := ProviderContent.blocks
        [ProviderBlock.toolResult (m.toolCallId.getD "") m.content] }
  | SpecRole.assistant, some (tc :: tcs) =>
    { role := "assistant"
      content := ProviderContent.blocks
        ((if m.content = "" then [] else [ProviderBlock.text m.content]) ++
          (tc :: tcs).map fun t =>
            ProviderBlock.toolUse t.id t.name ((Json.parse t.arguments).getD Json.null)) }
  | r, _ => { role := specRoleToString r, content := ProviderContent.scalar m.content }

/-- Modelled from the spec: a conversation maps to provider turns one
message at a time, preserving order. -/
def translateMessages (ms : List SpecMessage) : List ProviderMessage :=
  ms.map translateMessage

/-- Errors of the structured-output extractor. -/
inductive StructuredOutputError where
  | parseError (rawText : String)
  | missingOutput
  deriving Repr

/-- A structured-output result: the data object and the raw text. -/
structure StructuredOutputResult where
  data : Json
  rawText : String
  deriving Repr

/-- Modelled from the spec: section 4.4 schema-constrained mode of the
missing Anthropic extractor.  The model's sole text block is the raw
text; it is parsed as JSON exactly once, a failure surfacing as a
StructuredOutputParseError carrying the offending text, never a null
result and never a retry. -/
def structuredOutputSchemaMode (rawText : String) : Except StructuredOutputError StructuredOutputResult :=
  match Json.parse rawText with
  | some j => Except.ok { data := j, rawText := rawText }
  | none => Except.error (StructuredOutputError.parseError rawText)

/-- The structured input of the first tool-use block of a response. -/
def firstToolUseInput (blocks : List ProviderBlock) : Option Json :=
  blocks.findSome? fun b =>
    match b with
    | ProviderBlock.toolUse _ _ input => some input
    | _ => none

/-- Modelled from the spec: section 4.4 tool-use fallback mode of the
missing Anthropic extractor.  The first tool-invocation block's structured
input is taken directly as the data, with no JSON parse of any text, and
the raw text is reconstructed by serializing that object. -/
def structuredOutputToolMode (blocks : List ProviderBlock) : Except StructuredOutputError StructuredOutputResult :=
  match firstToolUseInput blocks with
  | some input => Except.ok { data := input, rawText := Json.render input }
  | none => Except.error StructuredOutputError.missingOutput

/-! ## Derived stream notions and concrete fixtures -/

/-- Concatenation of a list of strings in order. -/
def concatAll : List String → String
  | [] => ""
  | s :: rest => s ++ concatAll rest

/-- The text delta an event carries: its first choice's delta content,
with a missing choice or missing content counting as the empty string. -/
def eventDeltaText (ev : OpenAIStreamEvent) : String :=
  match ev.choices with
  | [] => ""
  | choice :: _ => choice.delta.content.getD ""

/-- The full assistant text of an event sequence: its deltas in order. -/
def aggregateContent (evs : List OpenAIStreamEvent) : String :=
  concatAll (evs.map eventDeltaText)

/-- The non-streamed response equivalent to a stream: one choice whose
message content is the concatenation of all the stream's text deltas. -/
def mkAggregateResponse (rid rmodel : String) (fr : Option String)
    (u : Option OpenAIUsage) (evs : List OpenAIStreamEvent) : OpenAIChatResponse :=
  { id := rid
    model := rmodel
    choices := [{ message := { role := "assistant", content := some (aggregateContent evs) }
                  finish_reason := fr }]
    usage := u }

/-- Whether the stream loop yields a chunk for an event. -/
def eventEmits (ev : OpenAIStreamEvent) : Bool :=
  match ev.choices with
  | [] => false
  | choice :: _ =>
    match choice.delta.content with
    | some s => s != ""
    | none => false

/-- A stream event carrying a text delta and no terminal metadata. -/
def c3ContentEvent : OpenAIStreamEvent :=
  { id := "r1"
    model := "m"
    choices := [{ delta := { content := some "Hi", role := some "assistant" } }] }

/-- A terminal stream event: no text delta, a stop finish reason, and
full usage totals. -/
def c3TerminalEvent : OpenAIStreamEvent :=
  { id := "r1"
    model := "m"
    choices := [{ delta := {}, finish_reason := some "stop" }]
    usage := some { prompt_tokens := 3, completion_tokens := 5, total_tokens := 8 } }

/-- Chat options with an empty model and an empty message list, violating
both preconditions the spec states for chatCompletion. -/
def c1InvalidOptions : ChatCompletionOptions :=
  { model := "", messages := [] }

/-- An adapter whose chat stream records whether it received the stream
flag set: it yields one chunk when stream is true and none otherwise. -/
def probeAdapter : AIAdapter :=
  { name := "probe"
    chatCompletion := fun _ =>
      { id := "", model := "", content := "", role := Role.assistant
        finishReason := none, usage := { promptTokens := 0, completionTokens := 0, totalTokens := 0 } }
    chatCompletionStream := fun o =>
      if o.stream = some true then
        [{ id := "probe", model := "m", content := "x" }]
      else []
    generateText := fun _ =>
      { id := "", model := "", text := "", finishReason := none
        usage := { promptTokens := 0, completionTokens := 0, totalTokens := 0 } }
    generateTextStream := fun _ => []
    summarize := fun _ =>
      { id := "", model := "", summary := ""
        usage := { promptTokens := 0, completionTokens := 0, totalTokens := 0 } }
    createEmbeddings := fun _ =>
      { id := "", model := "", embeddings := []
        usage := { promptTokens := 0, totalTokens := 0 } } }

/-- Chat options that explicitly ask for a non-streamed call. -/
def probeOptions : ChatCompletionOptions :=
  { model := "m", messages := [], stream := some false }

/-- The spec's section 8 example conversation: a user question, an
assistant turn with free text and one weather tool call, and the tool
result for that call. -/
def c8Conversation : List SpecMessage :=
  [ { role := SpecRole.user, content := "What is the forecast?" },
    { role := SpecRole.assistant
      content := "Checking"
      toolCalls := some [{ id := "call_weather", name := "lookup_weather"
                           arguments := "\x7b\"location\":\"Berlin\"\x7d" }] },
    { role := SpecRole.tool, content := "\x7b\"temp\":72\x7d", toolCallId := some "call_weather" } ]

/-- A single-string embedding request. -/
def c9Options : EmbeddingOptions :=
  { model := "text-embedding-ada-002", input := Sum.inl "hello" }

/-- An embeddings response carrying one vector, as the provider returns
for one input. -/
def c9Response : OpenAIEmbeddingResponse :=
  { model := "text-embedding-ada-002"
    data := [{ embedding := [1, 0] }]
    usage := { prompt_tokens := 2, total_tokens := 2 } }

/-- Summarization options with a style, a focus list and a length cap. -/
def c10OptionsA : SummarizationOptions :=
  { model := "gpt-4", text := "First text", maxLength := some 100
    style := some SummaryStyle.concise, focus := some ["weather"] }

/-- Summarization options differing from the first in model and text but
agreeing on style, focus and maxLength. -/
def c10OptionsB : SummarizationOptions :=
  { model := "", text := "Other text", maxLength := some 100
    style := some SummaryStyle.concise, focus := some ["weather"] }

/-! ## Helper lemmas -/

/-- Appending to the empty string is the identity. -/
theorem empty_string_append (s : String) : "" ++ s = s := by
  obtain ⟨l⟩ := s
  rfl

/-- An emitted chunk never carries usage: the loop body constructs every
yielded chunk without a usage field. -/
theorem emittedChunk_usage (ev : OpenAIStreamEvent) (c : ChatCompletionChunk)
    (h : emittedChunk ev = some c) : c.usage = none := by
  obtain ⟨i, mo, chs, u⟩ := ev
  cases chs with
  | nil => simp [emittedChunk] at h
  | cons choice rest =>
    obtain ⟨⟨co, ro⟩, fr⟩ := choice
    cases co with
    | none => simp [emittedChunk] at h
    | some s =>
      by_cases hs : s = ""
      · simp [emittedChunk, hs] at h
      · simp [emittedChunk, hs] at h
        rw [← h]

/-- An event the loop guard rejects yields no chunk. -/
theorem emittedChunk_of_not_emits (ev : OpenAIStreamEvent)
    (h : eventEmits ev = false) : emittedChunk ev = none := by
  obtain ⟨i, mo, chs, u⟩ := ev
  cases chs with
  | nil => rfl
  | cons choice rest =>
    obtain ⟨⟨co, ro⟩, fr⟩ := choice
    cases co with
    | none => rfl
    | some s =>
      have hs : s = "" := by simpa [eventEmits] using h
      simp [emittedChunk, hs]

/-- Concatenating the contents of the emitted chunks recovers the full
delta text of the event sequence: the guard only drops empty deltas. -/
theorem streamConcat_eq_aggregate (evs : List OpenAIStreamEvent) :
    concatAll ((chatCompletionStreamChunks evs).map fun c => c.content) = aggregateContent evs := by
  induction evs with
  | nil => rfl
  | cons ev evs ih =>
    simp only [chatCompletionStreamChunks, List.filterMap_cons, aggregateContent,
      List.map_cons, concatAll] at *
    obtain ⟨i, mo, chs, u⟩ := ev
    cases chs with
    | nil =>
      simp [emittedChunk, eventDeltaText, ih, empty_string_append]
    | cons choice rest =>
      obtain ⟨⟨co, ro⟩, fr⟩ := choice
      cases co with
      | none =>
        simp [emittedChunk, eventDeltaText, ih, empty_string_append]
      | some s =>
        by_cases hs : s = ""
        · subst hs
          simp [emittedChunk, eventDeltaText, ih, empty_string_append]
        · simp [emittedChunk, eventDeltaText, hs, concatAll, ih]

/-! ## Claim theorems -/

/-- C1, counterexample: called with an empty model and an empty message
list, chatCompletion does not fail with an InvalidArgument error before
the outbound request; its local phase succeeds, and the request it issues
silently substitutes the default model gpt-3.5-turbo. -/
theorem c1_no_validation_counterexample :
    (¬ ∃ e, chatCompletionLocal c1InvalidOptions = Except.error e) ∧
    (buildChatRequest c1InvalidOptions false).model = "gpt-3.5-turbo" := by
  constructor
  · rintro ⟨e, h⟩
    simp [chatCompletionLocal] at h
  · rfl

/-- C1, amended: none of the six adapter operations validates its
options; each local phase always succeeds and issues the built request,
and an empty model is silently replaced by the operation's default model
rather than rejected. -/
theorem c1_amended_no_local_failure (co : ChatCompletionOptions)
    (tg : TextGenerationOptions) (so : SummarizationOptions) (eo : EmbeddingOptions) :
    chatCompletionLocal co = Except.ok (buildChatRequest co false) ∧
    chatCompletionStreamLocal co = Except.ok (buildChatRequest co true) ∧
    generateTextLocal tg = Except.ok (buildTextRequest tg false) ∧
    generateTextStreamLocal tg = Except.ok (buildTextRequest tg true) ∧
    summarizeLocal so = Except.ok (summarizeRequest so) ∧
    createEmbeddingsLocal eo = Except.ok (buildEmbeddingsRequest eo) ∧
    (buildChatRequest co false).model = (if co.model = "" then "gpt-3.5-turbo" else co.model) ∧
    (buildTextRequest tg false).model = (if tg.model = "" then "gpt-3.5-turbo-instruct" else tg.model) :=
  ⟨rfl, rfl, rfl, rfl, rfl, rfl, rfl, rfl⟩

/-- C2: for an identical underlying model response — a non-streamed
response whose sole choice's message content is the concatenation of the
stream's text deltas — concatenating the content of every chunk
chatCompletionStream emits equals the content of the chatCompletion
result.  No usage-only chunk exists to exclude: the stream never emits
one. -/
theorem c2_stream_concat_matches_result (rid rmodel : String) (fr : Option String)
    (u : Option OpenAIUsage) (evs : List OpenAIStreamEvent) :
    (chatCompletionOfResponse (mkAggregateResponse rid rmodel fr u evs)).map
        (fun r => r.content) =
      some (concatAll ((chatCompletionStreamChunks evs).map fun c => c.content)) := by
  simp [chatCompletionOfResponse, mkAggregateResponse, streamConcat_eq_aggregate]

/-- C3, counterexample: a stream whose terminal event carries both a stop
finish reason and full usage totals.  The claim requires a final chunk
with finishReason set and usage populated; the code instead drops the
terminal event entirely — the only emitted chunk is the text chunk, and
no emitted chunk carries a finish reason or usage. -/
theorem c3_no_terminal_chunk_counterexample :
    chatCompletionStreamChunks [c3ContentEvent, c3TerminalEvent] =
      [{ id := "r1", model := "m", content := "Hi", role := some "assistant" }] ∧
    ((chatCompletionStreamChunks [c3ContentEvent, c3TerminalEvent]).all
        fun c => c.usage == none && c.finishReason == none) = true := by
  constructor
  · rfl
  · rfl

/-- C3, amended: the OpenAI stream normalizer emits a chunk only for an
event whose first choice carries a non-empty content delta, copying that
event's finish_reason onto the chunk; an event with no such delta —
including a terminal event carrying only a finish reason or usage — is
dropped, and no emitted chunk ever carries usage. -/
theorem c3_amended_stream_drops_terminal (ev : OpenAIStreamEvent)
    (evs : List OpenAIStreamEvent) (h : eventEmits ev = false) :
    ((chatCompletionStreamChunks evs).all fun c => c.usage == none) = true ∧
    chatCompletionStreamChunks (ev :: evs) = chatCompletionStreamChunks evs := by
  constructor
  · rw [List.all_eq_true]
    intro c hc
    obtain ⟨ev2, _, hev2⟩ := List.mem_filterMap.mp hc
    have := emittedChunk_usage ev2 c hev2
    simp [this]
  · simp [chatCompletionStreamChunks, List.filterMap_cons, emittedChunk_of_not_emits ev h]

/-- C3, witness: the amended theorem applied to the concrete terminal
event, whose guard evaluates to false. -/
theorem c3_amended_stream_drops_terminal_witness :
    ((chatCompletionStreamChunks []).all fun c => c.usage == none) = true ∧
    chatCompletionStreamChunks [c3TerminalEvent] = chatCompletionStreamChunks [] :=
  c3_amended_stream_drops_terminal c3TerminalEvent [] (by rfl)

/-- C4, counterexample: the unified Message model of the shared types
admits no tool role — no Role value denotes the wire string "tool" — so
the claimed four-role model with tool-call invariants fails on the code. -/
theorem c4_no_tool_role_counterexample : ¬ ∃ r : Role, roleToString r = "tool" := by
  rintro ⟨r, h⟩
  cases r <;> revert h <;> decide

/-- C4, amended: the unified Message model admits exactly the three roles
system, user and assistant, and a Message consists of exactly a role, a
content string and an optional name — it has no toolCalls and no
toolCallId field, so the spec's tool-message invariants are not
expressible in it. -/
theorem c4_amended_three_roles (r : Role) (m : Message) :
    (roleToString r = "system" ∨ roleToString r = "user" ∨ roleToString r = "assistant") ∧
    m = { role := m.role, content := m.content, name := m.name } := by
  constructor
  · cases r
    · exact Or.inl rfl
    · exact Or.inr (Or.inl rfl)
    · exact Or.inr (Or.inr rfl)
  · rfl

/-- C5, counterexample: the facade does not forward every call verbatim.
With options explicitly asking for a non-streamed call, chatStream hands
the adapter a modified options object with stream forced to true: the
probe adapter distinguishes the two, so the facade's result differs from
the adapter's result on the caller's options. -/
theorem c5_not_verbatim_counterexample :
    AI.chatStream { adapter := probeAdapter } probeOptions ≠
      probeAdapter.chatCompletionStream probeOptions := by
  decide

/-- C5, amended: chat, generateText, summarize, embed and the adapterName
accessor delegate to the bound adapter with the options unchanged and
return its result unchanged, and setAdapter replaces the bound adapter;
the two streaming operations also delegate directly but first copy the
options with stream set to true. -/
theorem c5_amended_delegation (a a2 : AIAdapter) (o : ChatCompletionOptions)
    (t : TextGenerationOptions) (s : SummarizationOptions) (e : EmbeddingOptions) :
    AI.chat { adapter := a } o = a.chatCompletion o ∧
    AI.chatStream { adapter := a } o = a.chatCompletionStream { o with stream := some true } ∧
    AI.generateText { adapter := a } t = a.generateText t ∧
    AI.generateTextStream { adapter := a } t = a.generateTextStream { t with stream := some true } ∧
    AI.summarize { adapter := a } s = a.summarize s ∧
    AI.embed { adapter := a } e = a.createEmbeddings e ∧
    AI.adapterName { adapter := a } = a.name ∧
    AI.setAdapter { adapter := a } a2 = { adapter := a2 } :=
  ⟨rfl, rfl, rfl, rfl, rfl, rfl, rfl, rfl⟩

/-- C6: in schema-constrained mode, any raw text that does not parse as
JSON makes the extractor fail with a StructuredOutputParseError carrying
that text — never an ok result, never a null substitute and, the
extractor being a single-shot function of the response, never a retry. -/
theorem c6_parse_failure_surfaces (t : String) (h : Json.parse t = none) :
    structuredOutputSchemaMode t = Except.error (StructuredOutputError.parseError t) := by
  unfold structuredOutputSchemaMode
  rw [h]

/-- C6, witness: the spec's own malformed text does not parse, and the
extractor fails on it with the parse error. -/
theorem c6_parse_failure_surfaces_witness :
    structuredOutputSchemaMode "not valid json" =
      Except.error (StructuredOutputError.parseError "not valid json") :=
  c6_parse_failure_surfaces "not valid json" rfl

/-- C7: in tool-use fallback mode, a response whose sole content block is
a tool invocation named structured_output returns that block's structured
input directly as the data — no JSON text parse is involved in this mode —
and the raw text is the JSON serialization of that object. -/
theorem c7_tool_fallback_returns_input (i : String) (input : Json) :
    structuredOutputToolMode [ProviderBlock.toolUse i "structured_output" input] =
      Except.ok { data := input, rawText := Json.render input } :=
  rfl

/-- C8: the section 8 conversation translates to exactly three provider
turns: the scalar user turn, an assistant turn whose blocks are the free
text followed by the tool-use block carrying the argument object parsed
from JSON, and a result-bearing turn whose sole block is the tool result
tagged with the matching tool-call id. -/
theorem c8_weather_conversation_translation :
    translateMessages c8Conversation =
      [ { role := "user", content := ProviderContent.scalar "What is the forecast?" },
        { role := "assistant"
          content := ProviderContent.blocks
            [ProviderBlock.text "Checking",
             ProviderBlock.toolUse "call_weather" "lookup_weather"
               (Json.obj [("location", Json.str "Berlin")])] },
        { role := "user"
          content := ProviderContent.blocks
            [ProviderBlock.toolResult "call_weather" "\x7b\"temp\":72\x7d"] } ] := by
  rfl

/-- C9: when the provider returns one embedding datum per supplied input —
one for a single string, N for a list of N strings — the result's
embeddings list has exactly that length, since createEmbeddings maps the
response data one-to-one. -/
theorem c9_embeddings_length (gid : String) (o : EmbeddingOptions)
    (resp : OpenAIEmbeddingResponse) (h : resp.data.length = inputCount o.input) :
    (createEmbeddingsResult gid resp).embeddings.length = inputCount o.input := by
  simp [createEmbeddingsResult, h]

/-- C9, witness: a single-string request and a one-datum response give an
embeddings list of length one. -/
theorem c9_embeddings_length_witness :
    c9Response.data.length = inputCount c9Options.input ∧
    (createEmbeddingsResult "emb-1" c9Response).embeddings.length = inputCount c9Options.input :=
  ⟨rfl, c9_embeddings_length "emb-1" c9Options c9Response rfl⟩

/-- C10: the one chat request summarize issues consists of exactly the
system message holding the built summarization prompt followed by the
user message holding the input text, with temperature fixed at 0.3 and
max_tokens equal to maxLength; and the built prompt depends only on
style, focus and maxLength — two option sets agreeing on those three
fields yield the same prompt whatever their other fields. -/
theorem c10_summarize_request_shape (o o2 : SummarizationOptions)
    (hstyle : o.style = o2.style) (hfocus : o.focus = o2.focus)
    (hlen : o.maxLength = o2.maxLength) :
    (summarizeRequest o).messages =
      [{ role := Role.system, content := buildSummarizationPrompt o },
       { role := Role.user, content := o.text }] ∧
    (summarizeRequest o).temperature = some (3 / 10 : ℚ) ∧
    (summarizeRequest o).max_tokens = o.maxLength ∧
    buildSummarizationPrompt o = buildSummarizationPrompt o2 := by
  refine ⟨rfl, rfl, rfl, ?_⟩
  unfold buildSummarizationPrompt
  rw [hstyle, hfocus, hlen]

/-- C10, witness: two concrete option sets differing in model and text
but agreeing on style, focus and maxLength. -/
theorem c10_summarize_request_shape_witness :
    (summarizeRequest c10OptionsA).messages =
      [{ role := Role.system, content := buildSummarizationPrompt c10OptionsA },
       { role := Role.user, content := c10OptionsA.text }] ∧
    (summarizeRequest c10OptionsA).temperature = some (3 / 10 : ℚ) ∧
    (summarizeRequest c10OptionsA).max_tokens = c10OptionsA.maxLength ∧
    buildSummarizationPrompt c10OptionsA = buildSummarizationPrompt c10OptionsB :=
  c10_summarize_request_shape c10OptionsA c10OptionsB rfl rfl rfl
